import Mathlib

set_option maxHeartbeats 1000000

/-!
Shallow embedding of the relation-resolution and schema-composition layer of
the Databend SQL analyzer (`src/query/src/sql/statements/statement_select_analyze_data.rs`).

The sqlparser AST types are embedded with exactly the fields the analyzer
touches; scalar expressions, planner expressions and nested query ASTs are
opaque tokens consumed only by external-collaborator oracles carried in the
query context.
-/

/-- Opaque token standing for a `sqlparser::ast::Expr` scalar expression node. -/
structure SqlExpr where
  id : Nat
  deriving DecidableEq

/-- Opaque token standing for a `common_planners::Expression` (the analyzed form). -/
structure Expression where
  id : Nat
  deriving DecidableEq

/-- Opaque token standing for a `sqlparser::ast::Query` nested-statement AST;
consumed only by the statement-dispatcher oracle. -/
structure Query where
  id : Nat
  deriving DecidableEq

/-- Opaque token standing for `QueryRelation` (never constructed by `create`). -/
structure QueryRelation where
  id : Nat
  deriving DecidableEq

/-- A `sqlparser::ast::Ident`: identifier value plus optional quote style. -/
structure Ident where
  value : String
  quote_style : Option Char
  deriving DecidableEq

/-- Mirrors `Ident::new`, which leaves the quote style unset. -/
def Ident.new (value : String) : Ident :=
  { value := value, quote_style := none }

/-- A `sqlparser::ast::ObjectName`; `parts` is the `Vec<Ident>` accessed as `name.0`. -/
structure ObjectName where
  parts : List Ident
  deriving DecidableEq

/-- A `sqlparser::ast::TableAlias`. -/
structure TableAlias where
  name : Ident
  columns : List Ident
  deriving DecidableEq

/-- A `sqlparser::ast::FunctionArg`: named or positional argument of a table function. -/
inductive FunctionArg where
  | Named (name : Ident) (arg : SqlExpr)
  | Unnamed (arg : SqlExpr)
  deriving DecidableEq

/-- The scalar expression carried by a function argument, as extracted by the
`match` in `analyze_table_function` (both arms feed the same analyzer). -/
def FunctionArg.getArg : FunctionArg → SqlExpr
  | FunctionArg.Named _ arg => arg
  | FunctionArg.Unnamed arg => arg

/-- A `sqlparser::ast::JoinConstraint`. -/
inductive JoinConstraint where
  | On (expr : SqlExpr)
  | Using (idents : List Ident)
  | Natural
  deriving DecidableEq

/-- A `sqlparser::ast::JoinOperator`. -/
inductive JoinOperator where
  | Inner (constraint : JoinConstraint)
  | LeftOuter (constraint : JoinConstraint)
  | RightOuter (constraint : JoinConstraint)
  | FullOuter (constraint : JoinConstraint)
  | CrossJoin
  | CrossApply
  | OuterApply
  deriving DecidableEq

mutual

/-- A `sqlparser::ast::TableFactor`. -/
inductive TableFactor where
  | Table (name : ObjectName) («alias» : Option TableAlias)
      (args : List FunctionArg) (with_hints : List SqlExpr)
  | Derived (lateral : Bool) (subquery : Query) («alias» : Option TableAlias)
  | NestedJoin (joins : TableWithJoins)
  | TableFunction (expr : SqlExpr) («alias» : Option TableAlias)

/-- A `sqlparser::ast::Join`: a joined relation together with its operator. -/
inductive Join where
  | mk (relation : TableFactor) (join_operator : JoinOperator)

/-- A `sqlparser::ast::TableWithJoins`: a base relation and its chain of joins. -/
inductive TableWithJoins where
  | mk (relation : TableFactor) (joins : List Join)

end

def Join.relation : Join → TableFactor
  | Join.mk r _ => r

def Join.join_operator : Join → JoinOperator
  | Join.mk _ op => op

def TableWithJoins.relation : TableWithJoins → TableFactor
  | TableWithJoins.mk r _ => r

def TableWithJoins.joins : TableWithJoins → List Join
  | TableWithJoins.mk _ js => js

/-- True for the table-factor shapes that are not nested parenthesized join groups. -/
def TableFactor.isLeaf : TableFactor → Bool
  | TableFactor.NestedJoin _ => false
  | _ => true

/-- A `TableWithJoins` whose base relation and joined relations are all leaf factors
(no nested parenthesized join groups). -/
def TableWithJoins.leavesOnly : TableWithJoins → Bool
  | TableWithJoins.mk relation joins =>
    relation.isLeaf && joins.all (fun j => j.relation.isLeaf)

/-- Total number of explicit join clauses across the top-level `FROM` entries. -/
def explicit_join_count (exprs : List TableWithJoins) : Nat :=
  (exprs.map (fun e => e.joins.length)).sum

/-- Modelled from the spec: a column of a Qualified Schema — unqualified name,
name-path qualification, semantic type and nullability (`analyzer_schema.rs` is
not part of the corpus). -/
structure AnalyzeQueryColumn where
  name : String
  namePath : List String
  dataType : String
  nullable : Bool
  deriving DecidableEq

/-- Modelled from the spec: the Qualified Schema — an ordered, named column list
supporting prefix-qualified lookup (`AnalyzeQuerySchema` in `analyzer_schema.rs`,
not part of the corpus). -/
structure AnalyzeQuerySchema where
  columns : List AnalyzeQueryColumn
  deriving DecidableEq

/-- Modelled from the spec: `AnalyzeQuerySchema::none()`, the special empty schema
with zero columns. -/
def AnalyzeQuerySchema.none : AnalyzeQuerySchema :=
  { columns := [] }

/-- A `common_datavalues::DataField` (name, semantic type, nullability). -/
structure DataField where
  name : String
  dataType : String
  nullable : Bool
  deriving DecidableEq

/-- A `common_datavalues::DataSchema`: an ordered list of fields. -/
structure DataSchema where
  fields : List DataField
  deriving DecidableEq

/-- `DataSchema::empty()`, the schema with no fields. -/
def DataSchema.empty : DataSchema :=
  { fields := [] }

/-- The `common_exception::ErrorCode` constructors this layer and its
collaborators surface. -/
inductive ErrorCode where
  | SyntaxException (msg : String)
  | UnImplement (msg : String)
  | BadArguments (msg : String)
  | LogicalError (msg : String)
  | UnknownTable (msg : String)
  | UnknownTableFunction (msg : String)
  deriving DecidableEq

/-- Modelled from the spec: the error taxonomy of §7 — syntax/unsupported-construct,
not-found, bad-arguments and internal-logic kinds. -/
inductive ErrorKind where
  | SyntaxUnsupported
  | NotFound
  | BadArguments
  | Internal
  deriving DecidableEq

/-- Modelled from the spec: classification of each error constructor into the §7
taxonomy (unimplemented constructs fall under syntax/unsupported). -/
def ErrorCode.kind : ErrorCode → ErrorKind
  | ErrorCode.SyntaxException _ => ErrorKind.SyntaxUnsupported
  | ErrorCode.UnImplement _ => ErrorKind.SyntaxUnsupported
  | ErrorCode.BadArguments _ => ErrorKind.BadArguments
  | ErrorCode.LogicalError _ => ErrorKind.Internal
  | ErrorCode.UnknownTable _ => ErrorKind.NotFound
  | ErrorCode.UnknownTableFunction _ => ErrorKind.NotFound

/-- Modelled from the spec: `AnalyzeQuerySchema::from_schema(schema, name_path)` —
constructing a Qualified Schema from a stored `DataSchema` by attaching the given
name-path to every column, order preserved (`analyzer_schema.rs` is not part of
the corpus). -/
def AnalyzeQuerySchema.from_schema (schema : DataSchema) (namePath : List String) :
    Except ErrorCode AnalyzeQuerySchema :=
  Except.ok
    { columns := schema.fields.map fun f =>
        { name := f.name, namePath := namePath, dataType := f.dataType, nullable := f.nullable } }

/-- The `AnalyzeQueryState` record (`ctx` handle omitted: it carries no data
observed by these claims). `projection_aliases` models the `HashMap` as an
association list. -/
structure AnalyzeQueryState where
  relation : Option QueryRelation
  filter_predicate : Option Expression
  before_group_by_expressions : List Expression
  group_by_expressions : List Expression
  aggregate_expressions : List Expression
  before_having_expressions : List Expression
  having_predicate : Option Expression
  order_by_expressions : List Expression
  projection_expressions : List Expression
  joined_schema : AnalyzeQuerySchema
  before_aggr_schema : AnalyzeQuerySchema
  after_aggr_schema : AnalyzeQuerySchema
  finalize_schema : DataSchema
  projection_aliases : List (String × Expression)
  deriving DecidableEq

/-- Modelled from the spec: the statement dispatcher's `AnalyzedResult`, a tagged
variant whose relevant case is the select-query analyzed state; all other
variants are collapsed into an opaque tag. -/
inductive AnalyzedResult where
  | SelectQuery (state : AnalyzeQueryState)
  | Other (tag : Nat)
  deriving DecidableEq

/-- The context handle bundling the external collaborators of §6: the catalog
(`get_table`, current database), the table-function registry, the Expression
Analyzer behaviour (`analyzeExpr schema expr`) and the statement dispatcher
(`analyzeQuery`, folding `DfQueryStatement::try_from` and `analyze`). -/
structure QueryContext where
  current_database : String
  get_table : String → String → Except ErrorCode DataSchema
  get_table_function : String → List Expression → Except ErrorCode DataSchema
  analyzeExpr : AnalyzeQuerySchema → SqlExpr → Except ErrorCode Expression
  analyzeQuery : Query → Except ErrorCode AnalyzedResult

def QueryContext.get_current_database (ctx : QueryContext) : String :=
  ctx.current_database

/-- Modelled from the spec: the external Expression Analyzer bound to a source
schema via `ExpressionAnalyzer::with_source(ctx, schema, aggregate_allowed)`
(`analyzer_expr.rs` is not part of the corpus). -/
structure ExpressionAnalyzer where
  ctx : QueryContext
  schema : AnalyzeQuerySchema
  aggregate_allowed : Bool

def ExpressionAnalyzer.with_source (ctx : QueryContext) (schema : AnalyzeQuerySchema)
    (aggregate_allowed : Bool) : ExpressionAnalyzer :=
  { ctx := ctx, schema := schema, aggregate_allowed := aggregate_allowed }

/-- Modelled from the spec: `analyzer.analyze(expr)` resolves a scalar expression
against the analyzer's bound schema. -/
def ExpressionAnalyzer.analyze (analyzer : ExpressionAnalyzer) (expr : SqlExpr) :
    Except ErrorCode Expression :=
  analyzer.ctx.analyzeExpr analyzer.schema expr

/-- `TableRPNItem`: a catalog table reference operand. -/
structure TableRPNItem where
  name : ObjectName
  «alias» : Option TableAlias
  deriving DecidableEq

/-- `DerivedRPNItem`: a derived-subquery operand. -/
structure DerivedRPNItem where
  subquery : Query
  «alias» : Option TableAlias
  deriving DecidableEq

/-- `TableFunctionRPNItem`: a table-function operand. -/
structure TableFunctionRPNItem where
  name : ObjectName
  args : List FunctionArg
  deriving DecidableEq

/-- `RelationRPNItem`: one postfix item of the flattened `FROM` clause. -/
inductive RelationRPNItem where
  | Table (item : TableRPNItem)
  | TableFunction (item : TableFunctionRPNItem)
  | Derived (item : DerivedRPNItem)
  | Join (op : JoinOperator)
  deriving DecidableEq

/-- True exactly for join-operator RPN items. -/
def isJoinItem : RelationRPNItem → Bool
  | RelationRPNItem.Join _ => true
  | _ => false

/-- Number of join-operator items in an RPN sequence. -/
def joinItemCount (rpn : List RelationRPNItem) : Nat :=
  rpn.countP (fun i => isJoinItem i)

/-- Number of relation operands (non-join items) in an RPN sequence. -/
def operandItemCount (rpn : List RelationRPNItem) : Nat :=
  rpn.countP (fun i => !isJoinItem i)

/-- `RelationRPNBuilder::visit_table`: push a table-reference operand. -/
def RelationRPNBuilder.visit_table (rpn : List RelationRPNItem) (name : ObjectName)
    («alias» : Option TableAlias) : Except ErrorCode (List RelationRPNItem) :=
  Except.ok (rpn ++ [RelationRPNItem.Table { name := name, «alias» := «alias» }])

/-- `RelationRPNBuilder::visit_table_function`: push a table-function operand. -/
def RelationRPNBuilder.visit_table_function (rpn : List RelationRPNItem)
    (name : ObjectName) (args : List FunctionArg) : Except ErrorCode (List RelationRPNItem) :=
  Except.ok (rpn ++ [RelationRPNItem.TableFunction { name := name, args := args }])

mutual

/-- `RelationRPNBuilder::visit_table_factor`: classify one table factor, rejecting
hints, named table functions, `LATERAL` and the inline table-function syntax, and
recursively flattening nested join groups. -/
def RelationRPNBuilder.visit_table_factor (rpn : List RelationRPNItem)
    (factor : TableFactor) : Except ErrorCode (List RelationRPNItem) :=
  match factor with
  | TableFactor.Table name «alias» args with_hints =>
    if !with_hints.isEmpty then
      Except.error (ErrorCode.SyntaxException "MSSQL-specific `WITH (...)` hints is unsupported.")
    else
      match args.isEmpty with
      | true => RelationRPNBuilder.visit_table rpn name «alias»
      | false =>
        if «alias».isNone then
          RelationRPNBuilder.visit_table_function rpn name args
        else
          Except.error (ErrorCode.SyntaxException "Table function cannot named.")
  | TableFactor.Derived lateral subquery «alias» =>
    if lateral then
      Except.error (ErrorCode.UnImplement "Cannot SELECT LATERAL subquery.")
    else
      Except.ok (rpn ++ [RelationRPNItem.Derived { subquery := subquery, «alias» := «alias» }])
  | TableFactor.NestedJoin joins => RelationRPNBuilder.visit_joins rpn joins
  | TableFactor.TableFunction _ _ =>
    Except.error (ErrorCode.UnImplement "Unsupported table function")

/-- `RelationRPNBuilder::visit_joins`: the base relation, then the join chain. -/
def RelationRPNBuilder.visit_joins (rpn : List RelationRPNItem) (expr : TableWithJoins) :
    Except ErrorCode (List RelationRPNItem) :=
  match expr with
  | TableWithJoins.mk relation joins =>
    match RelationRPNBuilder.visit_table_factor rpn relation with
    | Except.error e => Except.error e
    | Except.ok rpn2 => RelationRPNBuilder.visit_join_list rpn2 joins

/-- The `for join in &expr.joins` loop of `visit_joins`: each joined relation is
visited and followed by its join operator. -/
def RelationRPNBuilder.visit_join_list (rpn : List RelationRPNItem) (joins : List Join) :
    Except ErrorCode (List RelationRPNItem) :=
  match joins with
  | [] => Except.ok rpn
  | Join.mk relation join_operator :: rest =>
    match RelationRPNBuilder.visit_table_factor rpn relation with
    | Except.error e => Except.error e
    | Except.ok rpn2 =>
      RelationRPNBuilder.visit_join_list (rpn2 ++ [RelationRPNItem.Join join_operator]) rest

end

/-- `RelationRPNBuilder::visit_dummy_table`: the implicit `system.one` operand for
an empty `FROM` clause. -/
def RelationRPNBuilder.visit_dummy_table (rpn : List RelationRPNItem) :
    List RelationRPNItem :=
  rpn ++ [RelationRPNItem.Table
    { name := { parts := [Ident.new "system", Ident.new "one"] }, «alias» := none }]

/-- `RelationRPNBuilder::visit`: top-level entries in source order, with an implicit
cross-join operator emitted after every entry once the sequence is non-empty. -/
def RelationRPNBuilder.visit (rpn : List RelationRPNItem) (exprs : List TableWithJoins) :
    Except ErrorCode (List RelationRPNItem) :=
  match exprs with
  | [] => Except.ok rpn
  | expr :: rest =>
    match rpn.isEmpty with
    | true =>
      match RelationRPNBuilder.visit_joins rpn expr with
      | Except.error e => Except.error e
      | Except.ok rpn2 => RelationRPNBuilder.visit rpn2 rest
    | false =>
      match RelationRPNBuilder.visit_joins rpn expr with
      | Except.error e => Except.error e
      | Except.ok rpn2 =>
        RelationRPNBuilder.visit (rpn2 ++ [RelationRPNItem.Join JoinOperator.CrossJoin]) rest

/-- `RelationRPNBuilder::build`: empty `FROM` clause gets the dummy table, otherwise
the entries are visited starting from the empty sequence. -/
def RelationRPNBuilder.build (exprs : List TableWithJoins) :
    Except ErrorCode (List RelationRPNItem) :=
  match exprs.isEmpty with
  | true => Except.ok (RelationRPNBuilder.visit_dummy_table [])
  | false => RelationRPNBuilder.visit [] exprs

/-- `AnalyzeQueryState::resolve_table`: `[db.]table` name-arity resolution. -/
def AnalyzeQueryState.resolve_table (name : ObjectName) (ctx : QueryContext) :
    Except ErrorCode (String × String) :=
  match name.parts with
  | [] => Except.error (ErrorCode.SyntaxException "Table name is empty")
  | [x] => Except.ok (ctx.get_current_database, x.value)
  | [x, y] => Except.ok (x.value, y.value)
  | _ => Except.error (ErrorCode.SyntaxException "Table name must be [`db`].`table`")

/-- `AnalyzeQueryState::analyze_table`: resolve the name pair, fetch the stored
schema from the catalog and attach the «alias» or `[database, table]` name-path. -/
def AnalyzeQueryState.analyze_table (ctx : QueryContext) (item : TableRPNItem) :
    Except ErrorCode AnalyzeQuerySchema :=
  match AnalyzeQueryState.resolve_table item.name ctx with
  | Except.error e => Except.error e
  | Except.ok (database, table) =>
    match ctx.get_table database table with
    | Except.error e => Except.error e
    | Except.ok read_table_schema =>
      match item.«alias» with
      | Option.none => AnalyzeQuerySchema.from_schema read_table_schema [database, table]
      | Option.some table_alias =>
        AnalyzeQuerySchema.from_schema read_table_schema [table_alias.name.value]

/-- The `for table_arg in &item.args` loop of `analyze_table_function`: each
argument (named or positional) goes through the bound analyzer, in order. -/
def AnalyzeQueryState.analyze_args (analyzer : ExpressionAnalyzer) :
    List FunctionArg → Except ErrorCode (List Expression)
  | [] => Except.ok []
  | table_arg :: rest =>
    match (match table_arg with
           | FunctionArg.Named _ arg => analyzer.analyze arg
           | FunctionArg.Unnamed arg => analyzer.analyze arg) with
    | Except.error e => Except.error e
    | Except.ok expr =>
      match AnalyzeQueryState.analyze_args analyzer rest with
      | Except.error e => Except.error e
      | Except.ok rest_exprs => Except.ok (expr :: rest_exprs)

/-- `AnalyzeQueryState::analyze_table_function`: multi-part names are rejected
first; arguments are analyzed against the empty schema; the registry schema is
qualified with an empty name-path. The source indexes `name.0[0]` directly; the
head default is never reached for builder-produced items, whose names are
non-empty parsed object names. -/
def AnalyzeQueryState.analyze_table_function (ctx : QueryContext)
    (item : TableFunctionRPNItem) : Except ErrorCode AnalyzeQuerySchema :=
  if 2 ≤ item.name.parts.length then
    Except.error (ErrorCode.BadArguments "Currently table can't have arguments")
  else
    let table_name := (item.name.parts.headD (Ident.new "")).value
    let analyzer := ExpressionAnalyzer.with_source ctx AnalyzeQuerySchema.none false
    match AnalyzeQueryState.analyze_args analyzer item.args with
    | Except.error e => Except.error e
    | Except.ok table_args =>
      match ctx.get_table_function table_name table_args with
      | Except.error e => Except.error e
      | Except.ok table_function_schema =>
        AnalyzeQuerySchema.from_schema table_function_schema []

/-- `AnalyzeQueryState::analyze_subquery`: dispatch the nested statement; a
select-query result contributes its finalize schema under the «alias» name-path
(or none), anything else is an internal-logic error. -/
def AnalyzeQueryState.analyze_subquery (ctx : QueryContext) (v : DerivedRPNItem) :
    Except ErrorCode AnalyzeQuerySchema :=
  match ctx.analyzeQuery v.subquery with
  | Except.error e => Except.error e
  | Except.ok (AnalyzedResult.SelectQuery state) =>
    match v.«alias» with
    | Option.none => AnalyzeQuerySchema.from_schema state.finalize_schema []
    | Option.some «alias» =>
      AnalyzeQuerySchema.from_schema state.finalize_schema [«alias».name.value]
  | Except.ok _ =>
    Except.error (ErrorCode.LogicalError
      "Logical error, subquery analyzed data must be SelectQuery, it's a bug.")

/-- The `for rpn_item in &rpn` loop of `AnalyzeQueryState::create`: resolve each
operand in sequence, accumulating schemas; a join item is unimplemented. -/
def AnalyzeQueryState.analyze_relations (ctx : QueryContext) :
    List RelationRPNItem → List AnalyzeQuerySchema →
    Except ErrorCode (List AnalyzeQuerySchema)
  | [], analyzed_tables => Except.ok analyzed_tables
  | rpn_item :: rest, analyzed_tables =>
    match rpn_item with
    | RelationRPNItem.Join _ =>
      Except.error (ErrorCode.UnImplement "Unimplemented SELECT JOIN yet.")
    | RelationRPNItem.Table v =>
      match AnalyzeQueryState.analyze_table ctx v with
      | Except.error e => Except.error e
      | Except.ok schema =>
        AnalyzeQueryState.analyze_relations ctx rest (analyzed_tables ++ [schema])
    | RelationRPNItem.TableFunction v =>
      match AnalyzeQueryState.analyze_table_function ctx v with
      | Except.error e => Except.error e
      | Except.ok schema =>
        AnalyzeQueryState.analyze_relations ctx rest (analyzed_tables ++ [schema])
    | RelationRPNItem.Derived v =>
      match AnalyzeQueryState.analyze_subquery ctx v with
      | Except.error e => Except.error e
      | Except.ok schema =>
        AnalyzeQueryState.analyze_relations ctx rest (analyzed_tables ++ [schema])

/-- `AnalyzeQueryState::create`: build the RPN, resolve every operand, require
exactly one resolved schema, and return the initial state with every other field
empty. -/
def AnalyzeQueryState.create (ctx : QueryContext) (tables : List TableWithJoins) :
    Except ErrorCode AnalyzeQueryState :=
  match RelationRPNBuilder.build tables with
  | Except.error e => Except.error e
  | Except.ok rpn =>
    match AnalyzeQueryState.analyze_relations ctx rpn [] with
    | Except.error e => Except.error e
    | Except.ok analyzed_tables =>
      match analyzed_tables with
      | [schema] =>
        Except.ok
          { joined_schema := schema
            before_aggr_schema := AnalyzeQuerySchema.none
            after_aggr_schema := AnalyzeQuerySchema.none
            finalize_schema := DataSchema.empty
            relation := none
            filter_predicate := none
            before_group_by_expressions := []
            group_by_expressions := []
            aggregate_expressions := []
            before_having_expressions := []
            having_predicate := none
            order_by_expressions := []
            projection_expressions := []
            projection_aliases := [] }
      | _ => Except.error (ErrorCode.LogicalError "Logical error: this is relation rpn bug.")

/-! Concrete sample data used by witnesses and counterexamples. -/

/-- Sample stored schema with columns `a`, `b`. -/
def schemaT1 : DataSchema :=
  { fields := [{ name := "a", dataType := "Int64", nullable := false },
               { name := "b", dataType := "Int64", nullable := false }] }

/-- Sample stored schema with columns `c`, `d`. -/
def schemaT2 : DataSchema :=
  { fields := [{ name := "c", dataType := "UInt64", nullable := false },
               { name := "d", dataType := "String", nullable := true }] }

/-- Sample analyzed state produced by the dispatcher oracle for nested queries. -/
def sampleState : AnalyzeQueryState :=
  { relation := none
    filter_predicate := none
    before_group_by_expressions := []
    group_by_expressions := []
    aggregate_expressions := []
    before_having_expressions := []
    having_predicate := none
    order_by_expressions := []
    projection_expressions := []
    joined_schema := AnalyzeQuerySchema.none
    before_aggr_schema := AnalyzeQuerySchema.none
    after_aggr_schema := AnalyzeQuerySchema.none
    finalize_schema := schemaT1
    projection_aliases := [] }

/-- Sample context: catalog always stores `schemaT1`, the registry always answers
`schemaT2`, expressions analyze to tokens of the same id, and the dispatcher
returns a select-query state exactly for the query token `0`. -/
def ctx0 : QueryContext :=
  { current_database := "default"
    get_table := fun _ _ => Except.ok schemaT1
    get_table_function := fun _ _ => Except.ok schemaT2
    analyzeExpr := fun _ e => Except.ok { id := e.id }
    analyzeQuery := fun q =>
      if q.id = 0 then Except.ok (AnalyzedResult.SelectQuery sampleState)
      else Except.ok (AnalyzedResult.Other 7) }

/-- Table factor `t1` (bare name, no alias, no args, no hints). -/
def factorT1 : TableFactor :=
  TableFactor.Table { parts := [Ident.new "t1"] } none [] []

/-- Table factor `t2` (bare name, no alias, no args, no hints). -/
def factorT2 : TableFactor :=
  TableFactor.Table { parts := [Ident.new "t2"] } none [] []

/-- `FROM t1 JOIN t2 ON <expr 5>`: one top-level entry with one explicit join. -/
def fromJoined : List TableWithJoins :=
  [TableWithJoins.mk factorT1
    [Join.mk factorT2 (JoinOperator.Inner (JoinConstraint.On { id := 5 }))]]

/-- `FROM t1`: a single plain table. -/
def fromSingle : List TableWithJoins :=
  [TableWithJoins.mk factorT1 []]

/-- The RPN sequence the builder produces for `fromJoined`. -/
def rpnJoined : List RelationRPNItem :=
  [RelationRPNItem.Table { name := { parts := [Ident.new "t1"] }, «alias» := none },
   RelationRPNItem.Table { name := { parts := [Ident.new "t2"] }, «alias» := none },
   RelationRPNItem.Join (JoinOperator.Inner (JoinConstraint.On { id := 5 }))]

/-- The state `create` returns for `fromSingle` under `ctx0`. -/
def stateSingle : AnalyzeQueryState :=
  { relation := none
    filter_predicate := none
    before_group_by_expressions := []
    group_by_expressions := []
    aggregate_expressions := []
    before_having_expressions := []
    having_predicate := none
    order_by_expressions := []
    projection_expressions := []
    joined_schema := { columns :=
      [{ name := "a", namePath := ["default", "t1"], dataType := "Int64", nullable := false },
       { name := "b", namePath := ["default", "t1"], dataType := "Int64", nullable := false }] }
    before_aggr_schema := AnalyzeQuerySchema.none
    after_aggr_schema := AnalyzeQuerySchema.none
    finalize_schema := DataSchema.empty
    projection_aliases := [] }

/-! Helper lemmas. -/

/-- The argument loop of `analyze_table_function` analyzes exactly the scalar
expression of each argument, in order, through the bound analyzer. -/
theorem analyze_args_eq_mapM (analyzer : ExpressionAnalyzer) (args : List FunctionArg) :
    AnalyzeQueryState.analyze_args analyzer args =
      args.mapM (fun a => analyzer.ctx.analyzeExpr analyzer.schema a.getArg) := by
  induction args with
  | nil => rfl
  | cons a rest ih =>
    have harg : (match a with
        | FunctionArg.Named _ arg => analyzer.analyze arg
        | FunctionArg.Unnamed arg => analyzer.analyze arg) =
        analyzer.ctx.analyzeExpr analyzer.schema a.getArg := by
      cases a <;> rfl
    rw [List.mapM_cons]
    simp only [AnalyzeQueryState.analyze_args, harg, ih]
    cases hx : analyzer.ctx.analyzeExpr analyzer.schema a.getArg with
    | error e => rfl
    | ok expr =>
      cases hrest : rest.mapM (fun a => analyzer.ctx.analyzeExpr analyzer.schema a.getArg) with
      | error e => rfl
      | ok exprs => rfl

/-! Claim theorems. -/

/-- C5: for every derived-subquery operand whose nested statement analyzes to a
select-query state, the resolved schema is built from that state's finalize
schema, with name-path exactly the alias name when an alias is present and the
empty name-path otherwise — never the subquery's own internal table names. -/
theorem c5_subquery_alias_path (ctx : QueryContext) (v : DerivedRPNItem)
    (state : AnalyzeQueryState)
    (h : ctx.analyzeQuery v.subquery = Except.ok (AnalyzedResult.SelectQuery state)) :
    AnalyzeQueryState.analyze_subquery ctx v =
      AnalyzeQuerySchema.from_schema state.finalize_schema
        (match v.«alias» with
         | Option.some a => [a.name.value]
         | Option.none => []) := by
  unfold AnalyzeQueryState.analyze_subquery
  rw [h]
  cases hva : v.«alias» <;> rfl

/-- Witness for C5 at a concrete aliased subquery operand. -/
theorem c5_subquery_alias_path_witness :
    AnalyzeQueryState.analyze_subquery ctx0
        { subquery := { id := 0 }, «alias» := some { name := Ident.new "s", columns := [] } } =
      AnalyzeQuerySchema.from_schema sampleState.finalize_schema ["s"] :=
  c5_subquery_alias_path ctx0
    { subquery := { id := 0 }, «alias» := some { name := Ident.new "s", columns := [] } }
    sampleState rfl

/-- C6: for every derived-subquery operand whose nested statement analyzes to
anything other than a select-query result, the subquery resolver fails with an
internal-logic error kind, distinct from the syntax, not-found and
bad-arguments kinds. -/
theorem c6_subquery_internal_error (ctx : QueryContext) (v : DerivedRPNItem)
    (r : AnalyzedResult) (h : ctx.analyzeQuery v.subquery = Except.ok r)
    (hns : ∀ state, r ≠ AnalyzedResult.SelectQuery state) :
    AnalyzeQueryState.analyze_subquery ctx v =
      Except.error (ErrorCode.LogicalError
        "Logical error, subquery analyzed data must be SelectQuery, it's a bug.") ∧
    (ErrorCode.LogicalError
        "Logical error, subquery analyzed data must be SelectQuery, it's a bug.").kind =
      ErrorKind.Internal ∧
    ErrorKind.Internal ≠ ErrorKind.SyntaxUnsupported ∧
    ErrorKind.Internal ≠ ErrorKind.NotFound ∧
    ErrorKind.Internal ≠ ErrorKind.BadArguments := by
  refine ⟨?_, rfl, by decide, by decide, by decide⟩
  unfold AnalyzeQueryState.analyze_subquery
  rw [h]
  cases r with
  | SelectQuery s => exact absurd rfl (hns s)
  | Other t => rfl

/-- Witness for C6 at a concrete operand whose nested analysis yields a
non-select result. -/
theorem c6_subquery_internal_error_witness :
    AnalyzeQueryState.analyze_subquery ctx0 { subquery := { id := 1 }, «alias» := none } =
      Except.error (ErrorCode.LogicalError
        "Logical error, subquery analyzed data must be SelectQuery, it's a bug.") ∧
    (ErrorCode.LogicalError
        "Logical error, subquery analyzed data must be SelectQuery, it's a bug.").kind =
      ErrorKind.Internal ∧
    ErrorKind.Internal ≠ ErrorKind.SyntaxUnsupported ∧
    ErrorKind.Internal ≠ ErrorKind.NotFound ∧
    ErrorKind.Internal ≠ ErrorKind.BadArguments :=
  c6_subquery_internal_error ctx0 { subquery := { id := 1 }, «alias» := none }
    (AnalyzedResult.Other 7) rfl (fun _ h => nomatch h)

/-- C7 as stated is refuted at the zero-identifier table name: the resolver does
fail with a syntax error there, but its message is "Table name is empty", which
does not name the expected form. -/
theorem c7_counterexample :
    AnalyzeQueryState.resolve_table { parts := [] } ctx0 =
      Except.error (ErrorCode.SyntaxException "Table name is empty") ∧
    ¬ List.IsInfix "[`db`].`table`".data "Table name is empty".data :=
  ⟨rfl, by decide⟩

/-- C7 amended: one identifier resolves to (current database, identifier); two
identifiers resolve to (first, second); zero identifiers fail with a syntax
error stating the table name is empty; three or more identifiers fail with a
syntax error naming the expected form. -/
theorem c7_resolve_table_amended (ctx : QueryContext) (name : ObjectName) :
    (name.parts = [] →
      AnalyzeQueryState.resolve_table name ctx =
        Except.error (ErrorCode.SyntaxException "Table name is empty")) ∧
    (∀ x, name.parts = [x] →
      AnalyzeQueryState.resolve_table name ctx =
        Except.ok (ctx.get_current_database, x.value)) ∧
    (∀ x y, name.parts = [x, y] →
      AnalyzeQueryState.resolve_table name ctx = Except.ok (x.value, y.value)) ∧
    (3 ≤ name.parts.length →
      AnalyzeQueryState.resolve_table name ctx =
        Except.error (ErrorCode.SyntaxException "Table name must be [`db`].`table`") ∧
      List.IsInfix "[`db`].`table`".data "Table name must be [`db`].`table`".data) := by
  rcases name with ⟨parts⟩
  refine ⟨?_, ?_, ?_, ?_⟩
  · intro h
    simp only at h
    subst h
    rfl
  · intro x h
    simp only at h
    subst h
    rfl
  · intro x y h
    simp only at h
    subst h
    rfl
  · intro h
    cases parts with
    | nil => simp at h
    | cons x rest =>
      cases rest with
      | nil => simp at h
      | cons y rest2 =>
        cases rest2 with
        | nil => simp at h
        | cons z rest3 => exact ⟨rfl, by decide⟩

/-- Witness for the amended C7 at the zero- and one-identifier arities. -/
theorem c7_resolve_table_amended_witness :
    AnalyzeQueryState.resolve_table { parts := [] } ctx0 =
      Except.error (ErrorCode.SyntaxException "Table name is empty") ∧
    AnalyzeQueryState.resolve_table { parts := [Ident.new "t1"] } ctx0 =
      Except.ok ("default", "t1") :=
  ⟨(c7_resolve_table_amended ctx0 { parts := [] }).1 rfl,
   (c7_resolve_table_amended ctx0 { parts := [Ident.new "t1"] }).2.1 (Ident.new "t1") rfl⟩

/-- C8: for every successfully resolved table-reference operand the resulting
schema is the catalog's stored schema qualified by the alias name-path when an
alias is present and by [database, table] otherwise. -/
theorem c8_table_schema_path (ctx : QueryContext) (item : TableRPNItem)
    (db tbl : String) (schema : DataSchema)
    (hres : AnalyzeQueryState.resolve_table item.name ctx = Except.ok (db, tbl))
    (hcat : ctx.get_table db tbl = Except.ok schema) :
    AnalyzeQueryState.analyze_table ctx item =
      AnalyzeQuerySchema.from_schema schema
        (match item.«alias» with
         | Option.some a => [a.name.value]
         | Option.none => [db, tbl]) := by
  unfold AnalyzeQueryState.analyze_table
  rw [hres]
  dsimp only
  rw [hcat]
  cases hva : item.«alias» <;> rfl

/-- Witness for C8 at a concrete bare table reference. -/
theorem c8_table_schema_path_witness :
    AnalyzeQueryState.analyze_table ctx0
        { name := { parts := [Ident.new "t1"] }, «alias» := none } =
      AnalyzeQuerySchema.from_schema schemaT1 ["default", "t1"] :=
  c8_table_schema_path ctx0 { name := { parts := [Ident.new "t1"] }, «alias» := none }
    "default" "t1" schemaT1 rfl rfl

/-- C9 as stated is refuted at a concrete two-part table-function name: the
resolution fails before any argument evaluation, but the surfaced error is of
the bad-arguments kind, not the syntax/unsupported-construct kind. -/
theorem c9_counterexample :
    AnalyzeQueryState.analyze_table_function ctx0
        { name := { parts := [Ident.new "db1", Ident.new "f"] }, args := [] } =
      Except.error (ErrorCode.BadArguments "Currently table can't have arguments") ∧
    (ErrorCode.BadArguments "Currently table can't have arguments").kind ≠
      ErrorKind.SyntaxUnsupported :=
  ⟨rfl, by decide⟩

/-- C9 amended: for every table-function operand whose name has two or more
dotted parts, resolution fails with the bad-arguments kind error whose message
is "Currently table can't have arguments", before any argument is evaluated or
any registry lookup occurs (the result is the same for every context and every
argument list). -/
theorem c9_multipart_bad_arguments (ctx : QueryContext) (item : TableFunctionRPNItem)
    (h : 2 ≤ item.name.parts.length) :
    AnalyzeQueryState.analyze_table_function ctx item =
      Except.error (ErrorCode.BadArguments "Currently table can't have arguments") ∧
    (ErrorCode.BadArguments "Currently table can't have arguments").kind =
      ErrorKind.BadArguments := by
  refine ⟨?_, rfl⟩
  unfold AnalyzeQueryState.analyze_table_function
  rw [if_pos h]

/-- Witness for the amended C9 at a concrete three-part name with an argument. -/
theorem c9_multipart_bad_arguments_witness :
    AnalyzeQueryState.analyze_table_function ctx0
        { name := { parts := [Ident.new "a", Ident.new "b", Ident.new "c"] },
          args := [FunctionArg.Unnamed { id := 1 }] } =
      Except.error (ErrorCode.BadArguments "Currently table can't have arguments") ∧
    (ErrorCode.BadArguments "Currently table can't have arguments").kind =
      ErrorKind.BadArguments :=
  c9_multipart_bad_arguments ctx0
    { name := { parts := [Ident.new "a", Ident.new "b", Ident.new "c"] },
      args := [FunctionArg.Unnamed { id := 1 }] }
    (by decide)

/-- C10: for every table-function operand with a single-part name, every argument
(named or positional) is analyzed by the Expression Analyzer bound to the empty
schema, and the resulting schema is the registry function's declared output
schema with the empty name-path. -/
theorem c10_table_function_args (ctx : QueryContext) (item : TableFunctionRPNItem)
    (fn_ident : Ident) (arg_exprs : List Expression) (outSchema : DataSchema)
    (hname : item.name.parts = [fn_ident])
    (hargs : AnalyzeQueryState.analyze_args
        (ExpressionAnalyzer.with_source ctx AnalyzeQuerySchema.none false) item.args =
      Except.ok arg_exprs)
    (hreg : ctx.get_table_function fn_ident.value arg_exprs = Except.ok outSchema) :
    AnalyzeQueryState.analyze_table_function ctx item =
      AnalyzeQuerySchema.from_schema outSchema [] ∧
    AnalyzeQueryState.analyze_args
        (ExpressionAnalyzer.with_source ctx AnalyzeQuerySchema.none false) item.args =
      item.args.mapM (fun a => ctx.analyzeExpr AnalyzeQuerySchema.none a.getArg) := by
  refine ⟨?_, analyze_args_eq_mapM _ _⟩
  unfold AnalyzeQueryState.analyze_table_function
  rw [hname]
  rw [if_neg (by simp)]
  simp only []
  rw [hargs]
  dsimp only
  simp only [List.headD_cons]
  rw [hreg]

/-- Witness for C10 at a concrete one-argument table-function operand. -/
theorem c10_table_function_args_witness :
    AnalyzeQueryState.analyze_table_function ctx0
        { name := { parts := [Ident.new "numbers"] },
          args := [FunctionArg.Unnamed { id := 3 }] } =
      AnalyzeQuerySchema.from_schema schemaT2 [] ∧
    AnalyzeQueryState.analyze_args
        (ExpressionAnalyzer.with_source ctx0 AnalyzeQuerySchema.none false)
        [FunctionArg.Unnamed { id := 3 }] =
      [FunctionArg.Unnamed { id := 3 }].mapM
        (fun a => ctx0.analyzeExpr AnalyzeQuerySchema.none a.getArg) :=
  c10_table_function_args ctx0
    { name := { parts := [Ident.new "numbers"] }, args := [FunctionArg.Unnamed { id := 3 }] }
    (Ident.new "numbers") [{ id := 3 }] schemaT2 rfl rfl rfl

/-- Resolving a concatenated RPN sequence processes the first part, then the
second from the accumulated schemas. -/
theorem analyze_relations_append (ctx : QueryContext) (l1 l2 : List RelationRPNItem)
    (acc : List AnalyzeQuerySchema) :
    AnalyzeQueryState.analyze_relations ctx (l1 ++ l2) acc =
      match AnalyzeQueryState.analyze_relations ctx l1 acc with
      | Except.ok acc2 => AnalyzeQueryState.analyze_relations ctx l2 acc2
      | Except.error e => Except.error e := by
  induction l1 generalizing acc with
  | nil => rfl
  | cons i rest ih =>
    cases i with
    | Join op => rfl
    | Table v =>
      simp only [List.cons_append, AnalyzeQueryState.analyze_relations]
      cases AnalyzeQueryState.analyze_table ctx v with
      | error e => rfl
      | ok s => exact ih (acc ++ [s])
    | TableFunction v =>
      simp only [List.cons_append, AnalyzeQueryState.analyze_relations]
      cases AnalyzeQueryState.analyze_table_function ctx v with
      | error e => rfl
      | ok s => exact ih (acc ++ [s])
    | Derived v =>
      simp only [List.cons_append, AnalyzeQueryState.analyze_relations]
      cases AnalyzeQueryState.analyze_subquery ctx v with
      | error e => rfl
      | ok s => exact ih (acc ++ [s])

/-- An RPN sequence containing a join item never resolves successfully. -/
theorem analyze_relations_join_error (ctx : QueryContext) (op : JoinOperator) :
    ∀ (l : List RelationRPNItem), RelationRPNItem.Join op ∈ l →
      ∀ acc, ∃ e, AnalyzeQueryState.analyze_relations ctx l acc = Except.error e := by
  intro l
  induction l with
  | nil => intro hmem; cases hmem
  | cons i rest ih =>
    intro hmem acc
    cases i with
    | Join op2 => exact ⟨ErrorCode.UnImplement "Unimplemented SELECT JOIN yet.", rfl⟩
    | Table v =>
      have hmem2 : RelationRPNItem.Join op ∈ rest := by
        cases hmem with
        | tail _ h => exact h
      simp only [AnalyzeQueryState.analyze_relations]
      cases AnalyzeQueryState.analyze_table ctx v with
      | error e => exact ⟨e, rfl⟩
      | ok s => exact ih hmem2 (acc ++ [s])
    | TableFunction v =>
      have hmem2 : RelationRPNItem.Join op ∈ rest := by
        cases hmem with
        | tail _ h => exact h
      simp only [AnalyzeQueryState.analyze_relations]
      cases AnalyzeQueryState.analyze_table_function ctx v with
      | error e => exact ⟨e, rfl⟩
      | ok s => exact ih hmem2 (acc ++ [s])
    | Derived v =>
      have hmem2 : RelationRPNItem.Join op ∈ rest := by
        cases hmem with
        | tail _ h => exact h
      simp only [AnalyzeQueryState.analyze_relations]
      cases AnalyzeQueryState.analyze_subquery ctx v with
      | error e => exact ⟨e, rfl⟩
      | ok s => exact ih hmem2 (acc ++ [s])

/-- A successful visit of a leaf table factor appends exactly one relation
operand to the sequence. -/
theorem visit_table_factor_leaf (rpn : List RelationRPNItem) (factor : TableFactor)
    (hleaf : factor.isLeaf = true) (out : List RelationRPNItem)
    (h : RelationRPNBuilder.visit_table_factor rpn factor = Except.ok out) :
    ∃ item, isJoinItem item = false ∧ out = rpn ++ [item] := by
  cases factor with
  | Table name a args hints =>
    simp only [RelationRPNBuilder.visit_table_factor] at h
    split at h
    · exact Except.noConfusion h
    · split at h
      · simp only [RelationRPNBuilder.visit_table] at h
        injection h with h2
        exact ⟨RelationRPNItem.Table { name := name, «alias» := a }, rfl, h2.symm⟩
      · split at h
        · simp only [RelationRPNBuilder.visit_table_function] at h
          injection h with h2
          exact ⟨RelationRPNItem.TableFunction { name := name, args := args }, rfl, h2.symm⟩
        · exact Except.noConfusion h
  | Derived lateral subquery a =>
    simp only [RelationRPNBuilder.visit_table_factor] at h
    split at h
    · exact Except.noConfusion h
    · injection h with h2
      exact ⟨RelationRPNItem.Derived { subquery := subquery, «alias» := a }, rfl, h2.symm⟩
  | NestedJoin j => exact Bool.noConfusion hleaf
  | TableFunction e a =>
    simp only [RelationRPNBuilder.visit_table_factor] at h
    exact Except.noConfusion h

theorem operandItemCount_append (a b : List RelationRPNItem) :
    operandItemCount (a ++ b) = operandItemCount a + operandItemCount b := by
  simp [operandItemCount, List.countP_append]

theorem joinItemCount_append (a b : List RelationRPNItem) :
    joinItemCount (a ++ b) = joinItemCount a + joinItemCount b := by
  simp [joinItemCount, List.countP_append]

theorem explicit_join_count_cons (e : TableWithJoins) (rest : List TableWithJoins) :
    explicit_join_count (e :: rest) = e.joins.length + explicit_join_count rest := by
  simp [explicit_join_count]

theorem operandItemCount_single_operand (i : RelationRPNItem) (h : isJoinItem i = false) :
    operandItemCount [i] = 1 := by
  simp [operandItemCount, List.countP_cons, List.countP_nil, h]

theorem operandItemCount_single_join (op : JoinOperator) :
    operandItemCount [RelationRPNItem.Join op] = 0 := by
  simp [operandItemCount, List.countP_cons, List.countP_nil, isJoinItem]

theorem joinItemCount_single_operand (i : RelationRPNItem) (h : isJoinItem i = false) :
    joinItemCount [i] = 0 := by
  simp [joinItemCount, List.countP_cons, List.countP_nil, h]

theorem joinItemCount_single_join (op : JoinOperator) :
    joinItemCount [RelationRPNItem.Join op] = 1 := by
  simp [joinItemCount, List.countP_cons, List.countP_nil, isJoinItem]

/-- A successful visit of a chain of leaf joined relations appends one operand
and one join operator per join clause. -/
theorem visit_join_list_counts (joins : List Join) :
    ∀ (rpn out : List RelationRPNItem),
      (joins.all fun j => j.relation.isLeaf) = true →
      RelationRPNBuilder.visit_join_list rpn joins = Except.ok out →
      ∃ extra, out = rpn ++ extra ∧ operandItemCount extra = joins.length ∧
        joinItemCount extra = joins.length := by
  induction joins with
  | nil =>
    intro rpn out _ h
    injection h with h2
    exact ⟨[], by rw [← h2]; simp, rfl, rfl⟩
  | cons j rest ih =>
    intro rpn out hall h
    rw [List.all_cons, Bool.and_eq_true] at hall
    obtain ⟨hj, hrest⟩ := hall
    cases j with
    | mk rel op =>
      simp only [Join.relation] at hj
      simp only [RelationRPNBuilder.visit_join_list] at h
      cases hv : RelationRPNBuilder.visit_table_factor rpn rel with
      | error e => rw [hv] at h; exact Except.noConfusion h
      | ok rpn2 =>
        rw [hv] at h
        obtain ⟨item, hitem, hrpn2⟩ := visit_table_factor_leaf rpn rel hj rpn2 hv
        obtain ⟨extra, hout, hopc, hjc⟩ :=
          ih (rpn2 ++ [RelationRPNItem.Join op]) out hrest h
        refine ⟨[item] ++ [RelationRPNItem.Join op] ++ extra, ?_, ?_, ?_⟩
        · rw [hout, hrpn2]; simp
        · rw [operandItemCount_append, operandItemCount_append,
            operandItemCount_single_operand item hitem, operandItemCount_single_join, hopc]
          simp only [List.length_cons]
          omega
        · rw [joinItemCount_append, joinItemCount_append,
            joinItemCount_single_operand item hitem, joinItemCount_single_join, hjc]
          simp only [List.length_cons]
          omega

/-- A successful visit of a leaves-only `TableWithJoins` appends `1 + m` operands
and `m` join operators, where `m` is its number of explicit joins. -/
theorem visit_joins_counts (expr : TableWithJoins) (rpn out : List RelationRPNItem)
    (hl : expr.leavesOnly = true)
    (h : RelationRPNBuilder.visit_joins rpn expr = Except.ok out) :
    ∃ extra, out = rpn ++ extra ∧
      operandItemCount extra = 1 + expr.joins.length ∧
      joinItemCount extra = expr.joins.length := by
  cases expr with
  | mk rel joins =>
    simp only [TableWithJoins.leavesOnly, Bool.and_eq_true] at hl
    obtain ⟨hrel, hjoins⟩ := hl
    simp only [RelationRPNBuilder.visit_joins] at h
    cases hv : RelationRPNBuilder.visit_table_factor rpn rel with
    | error e => rw [hv] at h; exact Except.noConfusion h
    | ok rpn2 =>
      rw [hv] at h
      obtain ⟨item, hitem, hrpn2⟩ := visit_table_factor_leaf rpn rel hrel rpn2 hv
      obtain ⟨extra, hout, hopc, hjc⟩ := visit_join_list_counts joins rpn2 out hjoins h
      refine ⟨[item] ++ extra, ?_, ?_, ?_⟩
      · rw [hout, hrpn2]; simp
      · rw [operandItemCount_append, operandItemCount_single_operand item hitem, hopc]
        simp only [TableWithJoins.joins]
      · rw [joinItemCount_append, joinItemCount_single_operand item hitem, hjc]
        simp only [TableWithJoins.joins]
        omega

/-- Visiting further top-level entries onto a non-empty sequence appends `1 + mᵢ`
operands and `1 + mᵢ` join operators per entry (its joins plus the implicit
cross join). -/
theorem visit_counts (exprs : List TableWithJoins) :
    ∀ (rpn out : List RelationRPNItem),
      (exprs.all TableWithJoins.leavesOnly) = true → rpn ≠ [] →
      RelationRPNBuilder.visit rpn exprs = Except.ok out →
      ∃ extra, out = rpn ++ extra ∧
        operandItemCount extra = exprs.length + explicit_join_count exprs ∧
        joinItemCount extra = exprs.length + explicit_join_count exprs := by
  induction exprs with
  | nil =>
    intro rpn out _ _ h
    injection h with h2
    exact ⟨[], by rw [← h2]; simp, rfl, rfl⟩
  | cons e rest ih =>
    intro rpn out hall hne h
    rw [List.all_cons, Bool.and_eq_true] at hall
    obtain ⟨he, hrest⟩ := hall
    have hie : rpn.isEmpty = false := by
      cases rpn with
      | nil => exact absurd rfl hne
      | cons a l => rfl
    simp only [RelationRPNBuilder.visit] at h
    rw [hie] at h
    cases hv : RelationRPNBuilder.visit_joins rpn e with
    | error e2 => rw [hv] at h; exact Except.noConfusion h
    | ok rpn2 =>
      rw [hv] at h
      obtain ⟨extra1, hrpn2, hc1o, hc1j⟩ := visit_joins_counts e rpn rpn2 he hv
      have hne2 : rpn2 ++ [RelationRPNItem.Join JoinOperator.CrossJoin] ≠ [] := by simp
      obtain ⟨extra2, hout, hc2o, hc2j⟩ :=
        ih (rpn2 ++ [RelationRPNItem.Join JoinOperator.CrossJoin]) out hrest hne2 h
      refine ⟨extra1 ++ [RelationRPNItem.Join JoinOperator.CrossJoin] ++ extra2, ?_, ?_, ?_⟩
      · rw [hout, hrpn2]; simp
      · rw [operandItemCount_append, operandItemCount_append,
          operandItemCount_single_join, hc1o, hc2o, explicit_join_count_cons]
        simp only [List.length_cons]
        omega
      · rw [joinItemCount_append, joinItemCount_append,
          joinItemCount_single_join, hc1j, hc2j, explicit_join_count_cons]
        simp only [List.length_cons]
        omega

/-- C1 as stated is refuted at `FROM t1 JOIN t2 ON ...` under a catalog that
stores both tables: instead of concatenating the two resolved schemas into one
composed schema, resolution fails with the unimplemented-join error. -/
theorem c1_counterexample :
    AnalyzeQueryState.create ctx0 fromJoined =
      Except.error (ErrorCode.UnImplement "Unimplemented SELECT JOIN yet.") := rfl

/-- C1 amended: for every RPN sequence whose evaluation reaches a join-operator
item (every operand before it resolved successfully), the resolver stops with
the unimplemented-join error — it does not pop and concatenate the two resolved
schemas, and never resolves any item after the join; hence a FROM clause
containing joins fails resolution instead of producing a composed schema. -/
theorem c1_join_unimplemented (ctx : QueryContext) (pre suf : List RelationRPNItem)
    (op : JoinOperator) (acc acc2 : List AnalyzeQuerySchema)
    (h : AnalyzeQueryState.analyze_relations ctx pre acc = Except.ok acc2) :
    AnalyzeQueryState.analyze_relations ctx
        (pre ++ RelationRPNItem.Join op :: suf) acc =
      Except.error (ErrorCode.UnImplement "Unimplemented SELECT JOIN yet.") := by
  rw [analyze_relations_append ctx pre (RelationRPNItem.Join op :: suf) acc, h]
  rfl

/-- Witness for the amended C1: one resolved operand followed by a join item. -/
theorem c1_join_unimplemented_witness :
    AnalyzeQueryState.analyze_relations ctx0
        ([RelationRPNItem.Table { name := { parts := [Ident.new "t1"] }, «alias» := none }] ++
          RelationRPNItem.Join JoinOperator.CrossJoin ::
            [RelationRPNItem.Table { name := { parts := [Ident.new "t2"] }, «alias» := none }])
        [] =
      Except.error (ErrorCode.UnImplement "Unimplemented SELECT JOIN yet.") :=
  c1_join_unimplemented ctx0
    [RelationRPNItem.Table { name := { parts := [Ident.new "t1"] }, «alias» := none }]
    [RelationRPNItem.Table { name := { parts := [Ident.new "t2"] }, «alias» := none }]
    JoinOperator.CrossJoin [] _ rfl

/-- C2: whenever the built RPN of a FROM clause contains a join item, `create`
never returns a state (so no joined schema ever combines more than one
relation), and as soon as the operands before the first join item resolve,
the returned error is exactly the unimplemented-join error — independently of
everything after that join item, which is never resolved. -/
theorem c2_create_join_unimplemented (ctx : QueryContext) (tables : List TableWithJoins)
    (rpn pre suf : List RelationRPNItem) (op : JoinOperator)
    (hbuild : RelationRPNBuilder.build tables = Except.ok rpn)
    (hsplit : rpn = pre ++ RelationRPNItem.Join op :: suf) :
    (∀ state, AnalyzeQueryState.create ctx tables ≠ Except.ok state) ∧
    (∀ acc, AnalyzeQueryState.analyze_relations ctx pre [] = Except.ok acc →
      AnalyzeQueryState.create ctx tables =
        Except.error (ErrorCode.UnImplement "Unimplemented SELECT JOIN yet.")) := by
  subst hsplit
  constructor
  · intro state hok
    unfold AnalyzeQueryState.create at hok
    rw [hbuild] at hok
    dsimp only at hok
    obtain ⟨e, he⟩ :=
      analyze_relations_join_error ctx op (pre ++ RelationRPNItem.Join op :: suf)
        (by simp) []
    rw [he] at hok
    exact Except.noConfusion hok
  · intro acc hpre
    unfold AnalyzeQueryState.create
    rw [hbuild]
    dsimp only
    rw [analyze_relations_append ctx pre (RelationRPNItem.Join op :: suf) [], hpre]
    rfl

/-- Witness for C2 at `FROM t1 JOIN t2 ON ...` under `ctx0`. -/
theorem c2_create_join_unimplemented_witness :
    AnalyzeQueryState.create ctx0 fromJoined ≠ Except.ok sampleState ∧
    AnalyzeQueryState.create ctx0 fromJoined =
      Except.error (ErrorCode.UnImplement "Unimplemented SELECT JOIN yet.") :=
  ⟨(c2_create_join_unimplemented ctx0 fromJoined rpnJoined
      [RelationRPNItem.Table { name := { parts := [Ident.new "t1"] }, «alias» := none },
       RelationRPNItem.Table { name := { parts := [Ident.new "t2"] }, «alias» := none }]
      [] (JoinOperator.Inner (JoinConstraint.On { id := 5 })) rfl rfl).1 sampleState,
   (c2_create_join_unimplemented ctx0 fromJoined rpnJoined
      [RelationRPNItem.Table { name := { parts := [Ident.new "t1"] }, «alias» := none },
       RelationRPNItem.Table { name := { parts := [Ident.new "t2"] }, «alias» := none }]
      [] (JoinOperator.Inner (JoinConstraint.On { id := 5 })) rfl rfl).2 _ rfl⟩

/-- C3: with no nested parenthesized join groups, a successfully built RPN for
`n` top-level entries and `m` explicit joins has exactly `n + m` relation
operands and `n + m - 1` join operators; the empty FROM clause yields exactly
the single implicit `system.one` operand and no join operators. -/
theorem c3_rpn_counts (exprs : List TableWithJoins) (rpn : List RelationRPNItem)
    (hleaf : (exprs.all TableWithJoins.leavesOnly) = true)
    (hbuild : RelationRPNBuilder.build exprs = Except.ok rpn) :
    (exprs = [] →
      rpn = [RelationRPNItem.Table
        { name := { parts := [Ident.new "system", Ident.new "one"] }, «alias» := none }] ∧
      operandItemCount rpn = 1 ∧ joinItemCount rpn = 0) ∧
    (exprs ≠ [] →
      operandItemCount rpn = exprs.length + explicit_join_count exprs ∧
      joinItemCount rpn = exprs.length + explicit_join_count exprs - 1) := by
  constructor
  · intro hnil
    subst hnil
    simp only [RelationRPNBuilder.build, List.isEmpty] at hbuild
    injection hbuild with h2
    refine ⟨by rw [← h2]; rfl, by rw [← h2]; rfl, by rw [← h2]; rfl⟩
  · intro hne
    cases exprs with
    | nil => exact absurd rfl hne
    | cons e rest =>
      rw [List.all_cons, Bool.and_eq_true] at hleaf
      obtain ⟨he, hrest⟩ := hleaf
      simp only [RelationRPNBuilder.build, List.isEmpty] at hbuild
      simp only [RelationRPNBuilder.visit, List.isEmpty] at hbuild
      cases hv : RelationRPNBuilder.visit_joins [] e with
      | error e2 => rw [hv] at hbuild; exact Except.noConfusion hbuild
      | ok rpn2 =>
        rw [hv] at hbuild
        obtain ⟨extra1, hrpn2, hc1o, hc1j⟩ := visit_joins_counts e [] rpn2 he hv
        have hne2 : rpn2 ≠ [] := by
          rw [hrpn2]
          simp only [List.nil_append]
          intro hcon
          rw [hcon] at hc1o
          simp only [operandItemCount, List.countP_nil] at hc1o
          omega
        obtain ⟨extra2, hout, hc2o, hc2j⟩ := visit_counts rest rpn2 rpn hrest hne2 hbuild
        have hrpnsplit : rpn = extra1 ++ extra2 := by
          rw [hout, hrpn2]
          simp
        constructor
        · rw [hrpnsplit, operandItemCount_append, hc1o, hc2o, explicit_join_count_cons]
          simp only [List.length_cons]
          omega
        · rw [hrpnsplit, joinItemCount_append, hc1j, hc2j, explicit_join_count_cons]
          simp only [List.length_cons]
          omega

/-- Witness for C3 at `FROM t1 JOIN t2 ON ...`: 2 operands, 1 join operator. -/
theorem c3_rpn_counts_witness :
    operandItemCount rpnJoined = 2 ∧ joinItemCount rpnJoined = 1 :=
  (c3_rpn_counts fromJoined rpnJoined rfl rfl).2 (by simp [fromJoined])

/-- C4: whenever `create` succeeds, the returned state's joined schema is the
single fully resolved relation schema of the built RPN, every expression list
is empty, every optional field is unset, the projection-alias map is empty, and
the before-aggregate, after-aggregate and finalize schemas are the explicit
empty schemas. -/
theorem c4_create_fields (ctx : QueryContext) (tables : List TableWithJoins)
    (state : AnalyzeQueryState)
    (h : AnalyzeQueryState.create ctx tables = Except.ok state) :
    (∃ rpn, RelationRPNBuilder.build tables = Except.ok rpn ∧
      AnalyzeQueryState.analyze_relations ctx rpn [] = Except.ok [state.joined_schema]) ∧
    state.relation = none ∧ state.filter_predicate = none ∧
    state.before_group_by_expressions = [] ∧ state.group_by_expressions = [] ∧
    state.aggregate_expressions = [] ∧ state.before_having_expressions = [] ∧
    state.having_predicate = none ∧ state.order_by_expressions = [] ∧
    state.projection_expressions = [] ∧ state.projection_aliases = [] ∧
    state.before_aggr_schema = AnalyzeQuerySchema.none ∧
    state.after_aggr_schema = AnalyzeQuerySchema.none ∧
    state.finalize_schema = DataSchema.empty := by
  unfold AnalyzeQueryState.create at h
  cases hb : RelationRPNBuilder.build tables with
  | error e => rw [hb] at h; exact Except.noConfusion h
  | ok rpn =>
    rw [hb] at h
    dsimp only at h
    cases ha : AnalyzeQueryState.analyze_relations ctx rpn [] with
    | error e => rw [ha] at h; exact Except.noConfusion h
    | ok analyzed =>
      rw [ha] at h
      dsimp only at h
      cases analyzed with
      | nil => exact Except.noConfusion h
      | cons s rest =>
        cases rest with
        | nil =>
          injection h with h2
          subst h2
          exact ⟨⟨rpn, rfl, ha⟩, rfl, rfl, rfl, rfl, rfl, rfl, rfl, rfl, rfl, rfl,
            rfl, rfl, rfl⟩
        | cons s2 rest2 => exact Except.noConfusion h

/-- Witness for C4 at `FROM t1` under `ctx0`. -/
theorem c4_create_fields_witness :
    (∃ rpn, RelationRPNBuilder.build fromSingle = Except.ok rpn ∧
      AnalyzeQueryState.analyze_relations ctx0 rpn [] =
        Except.ok [stateSingle.joined_schema]) ∧
    stateSingle.relation = none ∧ stateSingle.filter_predicate = none ∧
    stateSingle.before_group_by_expressions = [] ∧
    stateSingle.group_by_expressions = [] ∧
    stateSingle.aggregate_expressions = [] ∧
    stateSingle.before_having_expressions = [] ∧
    stateSingle.having_predicate = none ∧ stateSingle.order_by_expressions = [] ∧
    stateSingle.projection_expressions = [] ∧ stateSingle.projection_aliases = [] ∧
    stateSingle.before_aggr_schema = AnalyzeQuerySchema.none ∧
    stateSingle.after_aggr_schema = AnalyzeQuerySchema.none ∧
    stateSingle.finalize_schema = DataSchema.empty :=
  c4_create_fields ctx0 fromSingle stateSingle rfl
